import Mathlib

/-!
# EnergyGuard AI — verification of the core rule engine

Shallow embedding of `src/energyguard_ai.py`.  Python floats are modelled
as rationals (`ℚ`); Python's `round(x, k)` (half-to-even on floats) is
modelled as round-half-up on `ℚ` via Mathlib's `round` — the spec leaves
the tie convention open.  Python lists become Lean lists with `append` at
the end, so `records[-1]` is `List.getLast?`.  Reason and action strings
are modelled as inductive constructors (one per distinct source string);
`Reason.usageLevel` carries the ratio formatted to two decimals, i.e. the
integer number of hundredths.  Sector, time and alert-level values stay
as `String`, as in the source.
-/

/-- `EnergyRecord.__init__` (src lines 8–15): one observation. -/
structure EnergyRecord where
  usage : ℚ
  expected_avg : ℚ
  sector : String
  time : String
  sunlight : Bool
  temperature : ℚ

/-- `EnergyHistory` (src lines 19–29): the append-only record list. -/
structure EnergyHistory where
  records : List EnergyRecord

/-- `EnergyHistory.add` (src lines 23–24): `self.records.append(record)`. -/
def EnergyHistory.add (h : EnergyHistory) (record : EnergyRecord) : EnergyHistory :=
  ⟨h.records ++ [record]⟩

/-- `EnergyHistory.trend_average` (src lines 26–29): `None` when fewer than
two records, else the mean usage over all records. -/
def EnergyHistory.trend_average (h : EnergyHistory) : Option ℚ :=
  if h.records.length < 2 then none
  else some ((h.records.map (fun r => r.usage)).sum / h.records.length)

/-- Python runtime exceptions relevant to `usage_ratio`.  `zeroDivisionError`
is what CPython raises on `x / 0`; `invalidInput` is the error kind the spec
(§7) requires — the source never produces it. -/
inductive PyExn where
  | zeroDivisionError
  | invalidInput
deriving DecidableEq

/-- `EnergyAnalytics.usage_ratio` (src lines 35–37):
`return record.usage / record.expected_avg`, with Python's division-by-zero
fault made explicit as `Except.error .zeroDivisionError`.  There is no
validation in the source: any nonzero `expected_avg` (negative included)
yields `Except.ok` of the quotient. -/
def EnergyAnalytics.usage_ratio (record : EnergyRecord) : Except PyExn ℚ :=
  if record.expected_avg = 0 then Except.error PyExn.zeroDivisionError
  else Except.ok (record.usage / record.expected_avg)

/-- `EnergyAnalytics.anomaly_detected` (src lines 39–44): `False` on empty
history, else `record.usage > records[-1].usage * 1.25`. -/
def EnergyAnalytics.anomaly_detected (record : EnergyRecord) (history : EnergyHistory) :
    Bool :=
  match history.records.getLast? with
  | none => false
  | some last => decide (last.usage * 1.25 < record.usage)

/-- `EnergyAnalytics.alert_level` (src lines 46–52). -/
def EnergyAnalytics.alert_level (ratio : ℚ) (anomaly : Bool) : String :=
  if 1.35 ≤ ratio ∨ anomaly = true then "CRITICAL"
  else if 1.15 ≤ ratio then "WARNING"
  else "NORMAL"

/-- `EnergyAnalytics.efficiency_score` (src lines 54–57):
`round(max(0, min(100, 100 - abs(ratio - 1) * 75)), 1)`, with `round(·, 1)`
modelled as `round(10 * x) / 10`. -/
def EnergyAnalytics.efficiency_score (ratio : ℚ) : ℚ :=
  let score := 100 - |ratio - 1| * 75
  ((round ((max 0 (min 100 score)) * 10) : ℤ) : ℚ) / 10

/-- The six distinct reason strings appended by `KeenAIBrain.decide`
(src lines 69–87).  `usageLevel n` is the f-string
`"Usage is {ratio:.2f}× expected level"`, carrying the formatted ratio as
its number of hundredths. -/
inductive Reason where
  | usageLevel (centiRatio : ℤ)
  | suddenSpike
  | coolingDemand
  | sunlightUnderuse
  | wasteRecoverable
  | gridBalancing
deriving DecidableEq

/-- Action priorities used by `KeenAIBrain.decide` (src lines 92–108). -/
inductive Priority where
  | IMMEDIATE
  | HIGH
  | MEDIUM
  | LOW
deriving DecidableEq

/-- The seven distinct action strings of `KeenAIBrain.decide`
(src lines 92–108). -/
inductive ActionText where
  | reduceLoad
  | daylightMirroring
  | wasteRecoveryLine
  | geothermalShift
  | optimizeSchedule
  | daylightLighting
  | noAction
deriving DecidableEq

/-- `KeenAIBrain.decide` (src lines 63–111), statement by statement:
`reasons`/`actions` accumulate by append, `confidence` by `+=`, then
`confidence = min(100, confidence + 30)`. -/
def KeenAIBrain.decide (record : EnergyRecord) (ratio : ℚ) (anomaly : Bool)
    (alert : String) : List Reason × List (Priority × ActionText) × ℕ :=
  let reasons : List Reason := []
  let actions : List (Priority × ActionText) := []
  let confidence : ℕ := 0
  let reasons := reasons ++ [Reason.usageLevel (round (ratio * 100))]
  let reasons := if anomaly = true then reasons ++ [Reason.suddenSpike] else reasons
  let reasons :=
    if 30 < record.temperature then reasons ++ [Reason.coolingDemand] else reasons
  let confidence := if 30 < record.temperature then confidence + 15 else confidence
  let reasons :=
    if record.sunlight = true ∧ record.time = "Day" then
      reasons ++ [Reason.sunlightUnderuse]
    else reasons
  let confidence :=
    if record.sunlight = true ∧ record.time = "Day" then confidence + 20 else confidence
  let reasons :=
    if record.sector = "Factory" then reasons ++ [Reason.wasteRecoverable] else reasons
  let confidence := if record.sector = "Factory" then confidence + 20 else confidence
  let reasons :=
    if record.sector = "Power Plant" then reasons ++ [Reason.gridBalancing] else reasons
  let confidence := if record.sector = "Power Plant" then confidence + 20 else confidence
  let actions :=
    if alert = "CRITICAL" then
      let actions := actions ++ [(Priority.IMMEDIATE, ActionText.reduceLoad)]
      let actions :=
        if record.sunlight = true then
          actions ++ [(Priority.IMMEDIATE, ActionText.daylightMirroring)]
        else actions
      let actions :=
        if record.sector ∈ ["Factory", "Power Plant"] then
          actions ++ [(Priority.IMMEDIATE, ActionText.wasteRecoveryLine)]
        else actions
      actions ++ [(Priority.HIGH, ActionText.geothermalShift)]
    else if alert = "WARNING" then
      let actions := actions ++ [(Priority.MEDIUM, ActionText.optimizeSchedule)]
      if record.sunlight = true then
        actions ++ [(Priority.MEDIUM, ActionText.daylightLighting)]
      else actions
    else
      actions ++ [(Priority.LOW, ActionText.noAction)]
  let confidence := min 100 (confidence + 30)
  (reasons, actions, confidence)

/-- The per-reading evaluation order of `main` (src lines 148–149):
the anomaly flag is computed against the history as it stands, and only
then is the record appended. -/
def mainCycle (history : EnergyHistory) (record : EnergyRecord) :
    Bool × EnergyHistory :=
  let anomaly := EnergyAnalytics.anomaly_detected record history
  (anomaly, history.add record)

/-- Python `str.strip()` (src line 139), ASCII-whitespace model: drop
whitespace from both ends. -/
def pyStrip (s : String) : String :=
  String.mk (((s.data.dropWhile Char.isWhitespace).reverse.dropWhile
    Char.isWhitespace).reverse)

/-- Python `str.capitalize()` (src line 139), ASCII model: first character
uppercased, every later character lowercased. -/
def pyCapitalize (s : String) : String :=
  match s.data with
  | [] => ""
  | c :: rest => String.mk (c.toUpper :: rest.map Char.toLower)

theorem KeenAIBrain.decide_reasons (record : EnergyRecord) (ratio : ℚ) (anomaly : Bool)
    (alert : String) :
    (KeenAIBrain.decide record ratio anomaly alert).1 =
      [Reason.usageLevel (round (ratio * 100))]
      ++ (if anomaly = true then [Reason.suddenSpike] else [])
      ++ (if 30 < record.temperature then [Reason.coolingDemand] else [])
      ++ (if record.sunlight = true ∧ record.time = "Day" then [Reason.sunlightUnderuse]
          else [])
      ++ (if record.sector = "Factory" then [Reason.wasteRecoverable] else [])
      ++ (if record.sector = "Power Plant" then [Reason.gridBalancing] else []) := by
  by_cases h1 : anomaly = true <;>
  by_cases h2 : 30 < record.temperature <;>
  by_cases h3 : record.sunlight = true ∧ record.time = "Day" <;>
  by_cases h4 : record.sector = "Factory" <;>
  by_cases h5 : record.sector = "Power Plant" <;>
    simp [KeenAIBrain.decide, h1, h2, h3, h4, h5]

theorem KeenAIBrain.decide_actions (record : EnergyRecord) (ratio : ℚ) (anomaly : Bool)
    (alert : String) :
    (KeenAIBrain.decide record ratio anomaly alert).2.1 =
      (if alert = "CRITICAL" then
        [(Priority.IMMEDIATE, ActionText.reduceLoad)]
        ++ (if record.sunlight = true then [(Priority.IMMEDIATE, ActionText.daylightMirroring)]
            else [])
        ++ (if record.sector ∈ (["Factory", "Power Plant"] : List String) then
              [(Priority.IMMEDIATE, ActionText.wasteRecoveryLine)]
            else [])
        ++ [(Priority.HIGH, ActionText.geothermalShift)]
      else if alert = "WARNING" then
        [(Priority.MEDIUM, ActionText.optimizeSchedule)]
        ++ (if record.sunlight = true then [(Priority.MEDIUM, ActionText.daylightLighting)]
            else [])
      else [(Priority.LOW, ActionText.noAction)]) := by
  by_cases h1 : alert = "CRITICAL" <;>
  by_cases h2 : alert = "WARNING" <;>
  by_cases h3 : record.sunlight = true <;>
  by_cases h4 : record.sector ∈ (["Factory", "Power Plant"] : List String) <;>
    simp [KeenAIBrain.decide, h1, h2, h3, h4]

theorem KeenAIBrain.decide_confidence (record : EnergyRecord) (ratio : ℚ) (anomaly : Bool)
    (alert : String) :
    (KeenAIBrain.decide record ratio anomaly alert).2.2 =
      min 100 (((if 30 < record.temperature then 15 else 0)
        + (if record.sunlight = true ∧ record.time = "Day" then 20 else 0)
        + (if record.sector = "Factory" then 20 else 0)
        + (if record.sector = "Power Plant" then 20 else 0)) + 30) := by
  by_cases h2 : 30 < record.temperature <;>
  by_cases h3 : record.sunlight = true ∧ record.time = "Day" <;>
  by_cases h4 : record.sector = "Factory" <;>
  by_cases h5 : record.sector = "Power Plant" <;>
    simp [KeenAIBrain.decide, h2, h3, h4, h5]

theorem Char.toNat_ofNat_of_lt {n : ℕ} (h : n < 55296) : (Char.ofNat n).toNat = n := by
  have hv : n.isValidChar := Or.inl h
  rw [Char.ofNat, dif_pos hv]
  rfl

theorem Char.toLower_ne_upper_P (c : Char) : Char.toLower c ≠ 'P' := by
  intro hEq
  simp only [Char.toLower] at hEq
  by_cases h : c.toNat ≥ 65 ∧ c.toNat ≤ 90
  · rw [if_pos h] at hEq
    have h32 : c.toNat + 32 < 55296 := by omega
    have hN := congrArg Char.toNat hEq
    rw [Char.toNat_ofNat_of_lt h32] at hN
    have hP : Char.toNat 'P' = 80 := rfl
    rw [hP] at hN
    omega
  · rw [if_neg h] at hEq
    subst hEq
    exact h (by decide)

theorem pyCapitalize_ne_power_plant (s : String) : pyCapitalize s ≠ "Power Plant" := by
  intro hEq
  unfold pyCapitalize at hEq
  cases hd : s.data with
  | nil =>
    rw [hd] at hEq
    exact absurd hEq (by decide)
  | cons c rest =>
    rw [hd] at hEq
    have hdata : c.toUpper :: rest.map Char.toLower = "Power Plant".data :=
      congrArg String.data hEq
    have hPdata : "Power Plant".data = ['P', 'o', 'w', 'e', 'r', ' ', 'P', 'l', 'a', 'n', 't'] :=
      rfl
    rw [hPdata] at hdata
    have htail : rest.map Char.toLower = ['o', 'w', 'e', 'r', ' ', 'P', 'l', 'a', 'n', 't'] :=
      (List.cons.injEq _ _ _ _ ▸ hdata).2
    have hmem : 'P' ∈ rest.map Char.toLower := by
      rw [htail]
      decide
    obtain ⟨a, _, haP⟩ := List.mem_map.mp hmem
    exact Char.toLower_ne_upper_P a haP

/-- C1: the source `usage_ratio` does not surface an `InvalidInput` error
kind.  At `expected_avg = 0` it raises Python's `ZeroDivisionError`
(a division fault), no record ever yields `invalidInput`, and a negative
`expected_avg` silently produces a negative ratio. -/
theorem usage_ratio_never_invalidInput :
    EnergyAnalytics.usage_ratio ⟨5, 0, "Home", "Day", false, 20⟩ =
      Except.error PyExn.zeroDivisionError
    ∧ (∀ record : EnergyRecord,
        EnergyAnalytics.usage_ratio record ≠ Except.error PyExn.invalidInput)
    ∧ EnergyAnalytics.usage_ratio ⟨5, -2, "Home", "Day", false, 20⟩ =
      Except.ok (-(5 / 2)) := by
  refine ⟨rfl, ?_, by norm_num [EnergyAnalytics.usage_ratio]⟩
  intro record
  unfold EnergyAnalytics.usage_ratio
  split <;> simp

/-- C2: `alert_level` is `CRITICAL` iff `ratio ≥ 1.35` or `anomaly`
(so `anomaly` alone forces CRITICAL, e.g. at ratio 0.5), else `WARNING`
iff `ratio ≥ 1.15`, else `NORMAL`; boundary values behave exactly as
claimed. -/
theorem alert_level_spec (ratio : ℚ) (anomaly : Bool) :
    (EnergyAnalytics.alert_level ratio anomaly = "CRITICAL" ↔
      1.35 ≤ ratio ∨ anomaly = true)
    ∧ (EnergyAnalytics.alert_level ratio anomaly = "WARNING" ↔
      ¬(1.35 ≤ ratio ∨ anomaly = true) ∧ 1.15 ≤ ratio)
    ∧ (EnergyAnalytics.alert_level ratio anomaly = "NORMAL" ↔
      ¬(1.35 ≤ ratio ∨ anomaly = true) ∧ ¬(1.15 ≤ ratio))
    ∧ EnergyAnalytics.alert_level 0.5 true = "CRITICAL"
    ∧ EnergyAnalytics.alert_level 1.35 false = "CRITICAL"
    ∧ EnergyAnalytics.alert_level 1.15 false = "WARNING"
    ∧ EnergyAnalytics.alert_level 1 false = "NORMAL" := by
  refine ⟨?_, ?_, ?_,
    by norm_num [EnergyAnalytics.alert_level],
    by norm_num [EnergyAnalytics.alert_level],
    by norm_num [EnergyAnalytics.alert_level],
    by norm_num [EnergyAnalytics.alert_level]⟩ <;>
  · unfold EnergyAnalytics.alert_level
    split_ifs with h1 h2 <;> simp_all

/-- C3: `anomaly_detected` is `false` on an empty history, and otherwise
`true` exactly when the reading's usage strictly exceeds 1.25 times the
usage of the most recently appended record; with last usage 100, usage
126 is an anomaly and usage 125 is not. -/
theorem anomaly_detected_spec (record : EnergyRecord) (history : EnergyHistory) :
    EnergyAnalytics.anomaly_detected record ⟨[]⟩ = false
    ∧ (EnergyAnalytics.anomaly_detected record history = true ↔
        ∃ last, history.records.getLast? = some last ∧
          last.usage * 1.25 < record.usage)
    ∧ (∀ rest : List EnergyRecord, ∀ last : EnergyRecord,
        EnergyAnalytics.anomaly_detected record ⟨rest ++ [last]⟩ =
          decide (last.usage * 1.25 < record.usage))
    ∧ EnergyAnalytics.anomaly_detected ⟨126, 1, "", "", false, 0⟩
        ⟨[⟨100, 1, "", "", false, 0⟩]⟩ = true
    ∧ EnergyAnalytics.anomaly_detected ⟨125, 1, "", "", false, 0⟩
        ⟨[⟨100, 1, "", "", false, 0⟩]⟩ = false := by
  refine ⟨rfl, ?_, ?_,
    by norm_num [EnergyAnalytics.anomaly_detected],
    by norm_num [EnergyAnalytics.anomaly_detected]⟩
  · unfold EnergyAnalytics.anomaly_detected
    cases h : history.records.getLast? with
    | none => simp [h]
    | some last => simp [h]
  · intro rest last
    unfold EnergyAnalytics.anomaly_detected
    simp

/-- C4: in the `main` cycle the anomaly flag is computed from the history
*before* the record is appended: the result equals `anomaly_detected`
against the pre-append history, the append happens after, and the next
cycle's anomaly check uses the previous cycle's record as "last", never
the reading being evaluated itself. -/
theorem mainCycle_anomaly_before_append (history : EnergyHistory)
    (record next : EnergyRecord) :
    (mainCycle history record).1 = EnergyAnalytics.anomaly_detected record history
    ∧ (mainCycle history record).2.records = history.records ++ [record]
    ∧ (mainCycle (mainCycle history record).2 next).1 =
        decide (record.usage * 1.25 < next.usage) := by
  refine ⟨rfl, rfl, ?_⟩
  simp [mainCycle, EnergyAnalytics.anomaly_detected, EnergyHistory.add]

theorem round_ten_bounds (y : ℚ) (hy0 : 0 ≤ y) (hy100 : y ≤ 100) :
    (0 : ℤ) ≤ round (y * 10) ∧ round (y * 10) ≤ 1000 := by
  constructor
  · rw [round_eq]
    apply Int.le_floor.mpr
    push_cast
    linarith
  · rw [round_eq]
    have hlt : (⌊y * 10 + 1 / 2⌋ : ℤ) < 1001 := by
      apply Int.floor_lt.mpr
      push_cast
      linarith
    omega

/-- C5: `efficiency_score ratio` is `100 - |ratio - 1| * 75` clamped to
`[0, 100]` and rounded to one decimal; it always lies in `[0, 100]`, and
`efficiency_score 1 = 100`. -/
theorem efficiency_score_spec (ratio : ℚ) :
    EnergyAnalytics.efficiency_score ratio =
      ((round ((min 100 (max 0 (100 - |ratio - 1| * 75))) * 10) : ℤ) : ℚ) / 10
    ∧ 0 ≤ EnergyAnalytics.efficiency_score ratio
    ∧ EnergyAnalytics.efficiency_score ratio ≤ 100
    ∧ EnergyAnalytics.efficiency_score 1 = 100 := by
  have hcomm : max 0 (min 100 (100 - |ratio - 1| * 75)) =
      min 100 (max 0 (100 - |ratio - 1| * 75)) := by
    rw [max_min_distrib_left]
    norm_num
  have hy0 : 0 ≤ max 0 (min 100 (100 - |ratio - 1| * 75)) := le_max_left _ _
  have hy100 : max 0 (min 100 (100 - |ratio - 1| * 75)) ≤ 100 :=
    max_le (by norm_num) (min_le_left _ _)
  obtain ⟨hr0, hr1000⟩ := round_ten_bounds _ hy0 hy100
  have hunfold : EnergyAnalytics.efficiency_score ratio =
      ((round ((max 0 (min 100 (100 - |ratio - 1| * 75))) * 10) : ℤ) : ℚ) / 10 := by
    simp only [EnergyAnalytics.efficiency_score]
  refine ⟨by rw [hunfold, hcomm], ?_, ?_,
    by norm_num [EnergyAnalytics.efficiency_score, min_def, max_def, round_eq]⟩
  · rw [hunfold]
    apply div_nonneg _ (by norm_num)
    exact_mod_cast hr0
  · rw [hunfold]
    rw [div_le_iff₀ (by norm_num : (0 : ℚ) < 10)]
    have : ((round ((max 0 (min 100 (100 - |ratio - 1| * 75))) * 10) : ℤ) : ℚ) ≤ 1000 := by
      exact_mod_cast hr1000
    linarith

/-- C6: the reasons list of `decide` is, in this fixed order: the ratio
line (always, formatted to two decimals), then conditionally the spike,
cooling-demand, sunlight-underuse, waste-energy and grid-balancing lines,
the two sector checks being independent; for temperature 35, sunlight,
time "Day" and sector "Factory" the list is exactly as claimed and the
confidence is 85. -/
theorem decide_reasons_spec (record : EnergyRecord) (ratio : ℚ) (anomaly : Bool)
    (alert : String) :
    (KeenAIBrain.decide record ratio anomaly alert).1 =
      [Reason.usageLevel (round (ratio * 100))]
      ++ (if anomaly = true then [Reason.suddenSpike] else [])
      ++ (if 30 < record.temperature then [Reason.coolingDemand] else [])
      ++ (if record.sunlight = true ∧ record.time = "Day" then [Reason.sunlightUnderuse]
          else [])
      ++ (if record.sector = "Factory" then [Reason.wasteRecoverable] else [])
      ++ (if record.sector = "Power Plant" then [Reason.gridBalancing] else [])
    ∧ (∀ usage expected_avg : ℚ,
        (KeenAIBrain.decide ⟨usage, expected_avg, "Factory", "Day", true, 35⟩
            ratio anomaly alert).1 =
          [Reason.usageLevel (round (ratio * 100))]
          ++ (if anomaly = true then [Reason.suddenSpike] else [])
          ++ [Reason.coolingDemand, Reason.sunlightUnderuse, Reason.wasteRecoverable])
    ∧ (∀ usage expected_avg : ℚ,
        (KeenAIBrain.decide ⟨usage, expected_avg, "Factory", "Day", true, 35⟩
            ratio anomaly alert).2.2 = 85) := by
  refine ⟨KeenAIBrain.decide_reasons record ratio anomaly alert, ?_, ?_⟩
  · intro usage expected_avg
    rw [KeenAIBrain.decide_reasons]
    cases anomaly <;> norm_num <;> decide
  · intro usage expected_avg
    rw [KeenAIBrain.decide_confidence]
    have hfp : ("Factory" : String) ≠ "Power Plant" := by decide
    norm_num [hfp, min_def]

/-- C7: with alert CRITICAL, sunlight and sector "Power Plant", `decide`
returns exactly the four claimed actions in order; the actions depend only
on the record and the alert string (never on ratio or anomaly), and
exactly one of the CRITICAL / WARNING / NORMAL branches produces them. -/
theorem decide_actions_spec (record : EnergyRecord) (ratio ratioB : ℚ)
    (anomaly anomalyB : Bool) (alert : String) :
    (∀ usage expected_avg temperature : ℚ, ∀ time : String,
      (KeenAIBrain.decide ⟨usage, expected_avg, "Power Plant", time, true, temperature⟩
          ratio anomaly "CRITICAL").2.1 =
        [(Priority.IMMEDIATE, ActionText.reduceLoad),
         (Priority.IMMEDIATE, ActionText.daylightMirroring),
         (Priority.IMMEDIATE, ActionText.wasteRecoveryLine),
         (Priority.HIGH, ActionText.geothermalShift)])
    ∧ (KeenAIBrain.decide record ratio anomaly alert).2.1 =
        (KeenAIBrain.decide record ratioB anomalyB alert).2.1
    ∧ (KeenAIBrain.decide record ratio anomaly alert).2.1 =
        (if alert = "CRITICAL" then
          [(Priority.IMMEDIATE, ActionText.reduceLoad)]
          ++ (if record.sunlight = true then
                [(Priority.IMMEDIATE, ActionText.daylightMirroring)]
              else [])
          ++ (if record.sector ∈ (["Factory", "Power Plant"] : List String) then
                [(Priority.IMMEDIATE, ActionText.wasteRecoveryLine)]
              else [])
          ++ [(Priority.HIGH, ActionText.geothermalShift)]
        else if alert = "WARNING" then
          [(Priority.MEDIUM, ActionText.optimizeSchedule)]
          ++ (if record.sunlight = true then
                [(Priority.MEDIUM, ActionText.daylightLighting)]
              else [])
        else [(Priority.LOW, ActionText.noAction)]) := by
  refine ⟨?_, ?_, KeenAIBrain.decide_actions record ratio anomaly alert⟩
  · intro usage expected_avg temperature time
    rw [KeenAIBrain.decide_actions]
    norm_num
  · rw [KeenAIBrain.decide_actions, KeenAIBrain.decide_actions]

/-- C8: the confidence of `decide` is `min(100, c + 30)` where `c`
accumulates exactly the +15 temperature, +20 sunlight-and-Day, +20
Factory and +20 Power-Plant increments, the flat +30 being unconditional;
it is always between 30 and 100. -/
theorem decide_confidence_spec (record : EnergyRecord) (ratio : ℚ) (anomaly : Bool)
    (alert : String) :
    (KeenAIBrain.decide record ratio anomaly alert).2.2 =
      min 100 (((if 30 < record.temperature then 15 else 0)
        + (if record.sunlight = true ∧ record.time = "Day" then 20 else 0)
        + (if record.sector = "Factory" then 20 else 0)
        + (if record.sector = "Power Plant" then 20 else 0)) + 30)
    ∧ (KeenAIBrain.decide record ratio anomaly alert).2.2 ≤ 100
    ∧ 30 ≤ (KeenAIBrain.decide record ratio anomaly alert).2.2 := by
  refine ⟨KeenAIBrain.decide_confidence record ratio anomaly alert, ?_, ?_⟩
  · rw [KeenAIBrain.decide_confidence]
    exact min_le_left _ _
  · rw [KeenAIBrain.decide_confidence]
    exact le_min (by norm_num) (Nat.le_add_left 30 _)

/-- C9: `trend_average` returns the absent-value sentinel `none` exactly
when fewer than two readings are stored, and otherwise `some` of the mean
usage over all stored readings. -/
theorem trend_average_spec (history : EnergyHistory) :
    (history.trend_average = none ↔ history.records.length < 2)
    ∧ (∀ q : ℚ, history.trend_average = some q ↔
        2 ≤ history.records.length ∧
          q = (history.records.map (fun r => r.usage)).sum / history.records.length)
    ∧ EnergyHistory.trend_average ⟨[]⟩ = none
    ∧ EnergyHistory.trend_average ⟨[⟨100, 1, "", "", false, 0⟩]⟩ = none
    ∧ EnergyHistory.trend_average
        ⟨[⟨100, 1, "", "", false, 0⟩, ⟨50, 1, "", "", false, 0⟩]⟩ = some 75 := by
  refine ⟨?_, ?_, rfl, rfl, by norm_num [EnergyHistory.trend_average]⟩
  · unfold EnergyHistory.trend_average
    split_ifs with h <;> simp [h]
  · intro q
    unfold EnergyHistory.trend_average
    split_ifs with h
    · simp only [reduceCtorEq, false_iff]
      intro hc
      omega
    · simp only [Option.some.injEq]
      constructor
      · intro hq
        exact ⟨by omega, hq.symm⟩
      · intro hq
        exact hq.2.symm

/-- C10: `strip().capitalize()` normalization (as applied to the sector
input in `main`) can never produce the string "Power Plant": every
character after the first is lowercased, while "Power Plant" has an
uppercase letter at position 6.  Hence through the interactive flow the
grid-balancing reason never fires, the Power-Plant confidence increment
is 0, and the CRITICAL waste-energy-recovery membership test reduces to
the Factory case alone. -/
theorem sector_capitalize_spec (s time alert : String)
    (usage expected_avg temperature ratio : ℚ) (sunlight anomaly : Bool) :
    pyCapitalize (pyStrip s) ≠ "Power Plant"
    ∧ Reason.gridBalancing ∉
        (KeenAIBrain.decide
          ⟨usage, expected_avg, pyCapitalize (pyStrip s), time, sunlight, temperature⟩
          ratio anomaly alert).1
    ∧ ((pyCapitalize (pyStrip s) ∈ (["Factory", "Power Plant"] : List String)) ↔
        pyCapitalize (pyStrip s) = "Factory")
    ∧ (if pyCapitalize (pyStrip s) = "Power Plant" then (20 : ℕ) else 0) = 0 := by
  have hne := pyCapitalize_ne_power_plant (pyStrip s)
  refine ⟨hne, ?_, ?_, if_neg hne⟩
  · rw [KeenAIBrain.decide_reasons]
    simp only [if_neg hne]
    split_ifs <;> simp
  · simp [hne]
